import Mathlib

/-!
Shallow embedding of the lumarr synchronization and identifier-resolution
engine (`src/lumarr`): the data model (`models.py`), the SQLite-backed sync
ledger and caches (`db.py`), the TMDB reverse-lookup client (`api/tmdb.py`),
the sync orchestrator (`cli/logic/sync_manager.py`) and the follow-mode tick
logic (`cli/logic/follow_mode.py`).

External collaborators (HTTP services, the SQLite engine, the wall clock) are
modelled as explicit oracles: pure functions supplied in the environment.
SQLite tables become Lean lists of row structures; `INSERT OR REPLACE` on a
unique key becomes filter-out-then-append.  `datetime.now()` becomes an
explicit `now : Nat` carried by the environment.  Python string truthiness
(`if s:` is false for both `None` and `""`) is modelled by `truthy`.
-/

namespace Lumarr

/-- Python truthiness of an optional string: `None` and `""` are falsy. -/
def truthy : Option String → Bool
  | none => false
  | some s => !s.isEmpty

/-- Python truthiness of an optional integer: `None` and `0` are falsy. -/
def intTruthy : Option Int → Bool
  | none => false
  | some n => n != 0

/-- Embedding of `models.py` `MediaType` enum. -/
inductive MediaType where
  | movie
  | tv_show
deriving DecidableEq, Repr

/-- Embedding of `MediaType.value`: the string stored in the database. -/
def MediaType.value : MediaType → String
  | .movie => "movie"
  | .tv_show => "show"

/-- Embedding of `models.py` `RequestStatus` enum. -/
inductive RequestStatus where
  | pending
  | success
  | failed
  | skipped
deriving DecidableEq, Repr

/-- Embedding of `RequestStatus.value`: the string stored in the database. -/
def RequestStatus.value : RequestStatus → String
  | .pending => "pending"
  | .success => "success"
  | .failed => "failed"
  | .skipped => "skipped"

/-- Embedding of `models.py` `ProviderId`: optional TMDB/TVDB/IMDB identifier strings. -/
structure ProviderId where
  tmdb_id : Option String := none
  tvdb_id : Option String := none
  imdb_id : Option String := none
deriving DecidableEq, Repr

/-- Embedding of `models.py` `WatchlistItem`.  `rating : Optional[float]` in the source is
modelled as `Option Rat`; it is never used by the sync logic embedded here.
`provider_ids` is `Optional` in the source dataclass but every adapter
populates it before the sync path runs, so it is modelled as a plain field. -/
structure WatchlistItem where
  rating_key : String
  title : String
  media_type : MediaType
  year : Option Int := none
  guids : List String := []
  provider_ids : ProviderId := {}
  content_rating : Option String := none
  summary : Option String := none
  genres : List String := []
  studio : Option String := none
  added_at : Option Int := none
  rating : Option Rat := none
  letterboxd_id : Option String := none
  letterboxd_slug : Option String := none
deriving DecidableEq, Repr

/-- Embedding of `models.py` `SyncResult`. -/
structure SyncResult where
  item : WatchlistItem
  status : RequestStatus
  message : String
  target_service : String
deriving DecidableEq, Repr

/-- Embedding of `models.py` `SyncSummary`. -/
structure SyncSummary where
  total : Nat := 0
  movies_added : Nat := 0
  shows_added : Nat := 0
  skipped : Nat := 0
  failed : Nat := 0
  results : List SyncResult := []
deriving DecidableEq, Repr

/-- Row of the `synced_items` table (`db.py` `_init_db`), unique on
`(rating_key, target_service)`.  `synced_at` is the `datetime.now()`
timestamp, modelled as `Nat`. -/
structure SyncedItemRow where
  rating_key : String
  title : String
  media_type : String
  tmdb_id : Option String := none
  tvdb_id : Option String := none
  imdb_id : Option String := none
  target_service : String
  status : String
  synced_at : Nat := 0
  error_message : Option String := none
deriving DecidableEq, Repr

/-- Row of the `letterboxd_metadata` table (`db.py` `_init_db`), keyed on
`letterboxd_id`. -/
structure LetterboxdRow where
  letterboxd_id : String
  slug : String
  tmdb_id : Option String := none
  title : Option String := none
  year : Option Int := none
  fetched_at : Option Nat := none
deriving DecidableEq, Repr

/-- The SQLite database state relevant to the embedded claims: the sync
ledger and the Letterboxd external-id cache (`db.py`). -/
structure Database where
  synced_items : List SyncedItemRow := []
  letterboxd_metadata : List LetterboxdRow := []
deriving DecidableEq, Repr

/-- Embedding of `db.py` `Database.is_synced`: `SELECT COUNT(*) ... WHERE rating_key = ?
AND target_service = ? AND status = success`, then `count > 0`. -/
def Database.is_synced (db : Database) (rating_key target_service : String) : Bool :=
  decide (0 < (db.synced_items.filter (fun r =>
    r.rating_key == rating_key && r.target_service == target_service &&
    r.status == RequestStatus.success.value)).length)

/-- Embedding of `db.py` `Database.record_sync`: `INSERT OR REPLACE INTO synced_items`.
SQLite resolves the `UNIQUE(rating_key, target_service)` conflict by deleting
the conflicting row and inserting the new one, modelled as filter-out plus
append.  `now` models `datetime.now().isoformat()`. -/
def Database.record_sync (db : Database) (now : Nat) (rating_key title : String)
    (media_type : MediaType) (target_service : String) (status : RequestStatus)
    (tmdb_id : Option String := none) (tvdb_id : Option String := none)
    (imdb_id : Option String := none) (error_message : Option String := none) :
    Database :=
  { db with synced_items :=
      (db.synced_items.filter (fun r =>
        !(r.rating_key == rating_key && r.target_service == target_service))) ++
      [{ rating_key := rating_key, title := title, media_type := media_type.value,
         tmdb_id := tmdb_id, tvdb_id := tvdb_id, imdb_id := imdb_id,
         target_service := target_service, status := status.value,
         synced_at := now, error_message := error_message }] }

/-- Embedding of `db.py` `Database.get_letterboxd_metadata`: `SELECT ... WHERE
letterboxd_id = ?` with `fetchone`. -/
def Database.get_letterboxd_metadata (db : Database) (letterboxd_id : String) :
    Option LetterboxdRow :=
  db.letterboxd_metadata.find? (fun r => r.letterboxd_id == letterboxd_id)

/-- Embedding of `db.py` `Database.set_letterboxd_metadata`: `INSERT OR REPLACE INTO
letterboxd_metadata` keyed on `letterboxd_id`; the source computes
`fetched_at = datetime.now().isoformat() if tmdb_id else None` (Python
truthiness on `tmdb_id`). -/
def Database.set_letterboxd_metadata (db : Database) (now : Nat)
    (letterboxd_id slug title : String) (year : Option Int := none)
    (tmdb_id : Option String := none) : Database :=
  let fetched_at : Option Nat := if truthy tmdb_id then some now else none
  { db with letterboxd_metadata :=
      (db.letterboxd_metadata.filter (fun r => !(r.letterboxd_id == letterboxd_id))) ++
      [{ letterboxd_id := letterboxd_id, slug := slug, tmdb_id := tmdb_id,
         title := some title, year := year, fetched_at := fetched_at }] }

/-- Rows of the ledger matching an exact `(rating_key, target_service)` pair. -/
def Database.rowsFor (db : Database) (rating_key target_service : String) :
    List SyncedItemRow :=
  db.synced_items.filter (fun r =>
    r.rating_key == rating_key && r.target_service == target_service)

/-! ## TMDB reverse-lookup client (`api/tmdb.py`) -/

/-- One element of the `movie_results` array of a TMDB `/find` response. -/
structure MovieResult where
  id : Option Int := none
deriving DecidableEq, Repr

/-- The `external_ids` object of a TMDB tv result. -/
structure TvExternalIds where
  tvdb_id : Option Int := none
deriving DecidableEq, Repr

/-- One element of the `tv_results` array of a TMDB `/find` response. -/
structure TvResult where
  id : Option Int := none
  external_ids : TvExternalIds := {}
deriving DecidableEq, Repr

/-- JSON body of a TMDB `/find/{id}` response. -/
structure FindResult where
  movie_results : List MovieResult := []
  tv_results : List TvResult := []
deriving DecidableEq, Repr

/-- Conversion `str(x.get("id", ""))` on an optional integer id field. -/
def intIdStr : Option Int → String
  | none => ""
  | some n => toString n

/-- Embedding of `api/tmdb.py` `TmdbApi`.  The HTTP `GET /find/{external_id}` is modelled
by the oracle `find`; a `none` answer covers both a transport error
(`requests.RequestException`, which the source turns into `None`) and any
case where no response body is obtained. -/
structure TmdbApi where
  api_key : Option String := none
  find : String → String → Option FindResult := fun _ _ => none

/-- Embedding of `TmdbApi.is_configured`: `bool(self.api_key)` (Python truthiness). -/
def TmdbApi.is_configured (t : TmdbApi) : Bool :=
  truthy t.api_key

/-- Embedding of `TmdbApi.find_by_external_id`: returns `None` when unconfigured,
otherwise performs the network call (the oracle). -/
def TmdbApi.find_by_external_id (t : TmdbApi) (external_id external_source : String) :
    Option FindResult :=
  if t.is_configured then t.find external_id external_source else none

/-- Embedding of `TmdbApi.enhance_provider_ids`.  The second component of the result is
the instrumentation: the list of `(external_id, external_source)` lookup
calls issued through `find_by_external_id`, used to state the no-network-call
properties; the first component is the returned `ProviderId` exactly as the
source computes it. -/
def TmdbApi.enhance_provider_ids (t : TmdbApi) (provider_ids : ProviderId)
    (media_type : String) : ProviderId × List (String × String) :=
  if !t.is_configured then (provider_ids, [])
  else if truthy provider_ids.tmdb_id then (provider_ids, [])
  else
    let step1 : Option FindResult × List (String × String) :=
      if truthy provider_ids.tvdb_id then
        (t.find_by_external_id (provider_ids.tvdb_id.getD "") "tvdb_id",
         [(provider_ids.tvdb_id.getD "", "tvdb_id")])
      else (none, [])
    let step2 : Option FindResult × List (String × String) :=
      if step1.1.isNone && truthy provider_ids.imdb_id then
        (t.find_by_external_id (provider_ids.imdb_id.getD "") "imdb_id",
         step1.2 ++ [(provider_ids.imdb_id.getD "", "imdb_id")])
      else step1
    match step2.1 with
    | none => (provider_ids, step2.2)
    | some result =>
      if media_type == "movie" && !result.movie_results.isEmpty then
        let movie := result.movie_results.headD {}
        ({ provider_ids with tmdb_id := some (intIdStr movie.id) }, step2.2)
      else if media_type == "show" && !result.tv_results.isEmpty then
        let tvRes := result.tv_results.headD {}
        let p := { provider_ids with tmdb_id := some (intIdStr tvRes.id) }
        let p :=
          if !truthy p.tvdb_id then
            if intTruthy tvRes.external_ids.tvdb_id then
              { p with tvdb_id := some (intIdStr tvRes.external_ids.tvdb_id) }
            else p
          else p
        (p, step2.2)
      else (provider_ids, step2.2)

/-! ## External collaborators of the orchestrator, as oracles -/

/-- Oracle for `api/plex.py` `PlexApi.get_watchlist`; `Except.error` models a raised
`PlexApiError`. -/
structure PlexApi where
  get_watchlist : Bool → Except String (List WatchlistItem) := fun _ => .ok []

/-- Oracle for `api/radarr.py` `RadarrApi.add_movie`; `Except.error` models a raised
`RadarrApiError`, `Except.ok msg` the returned `result["message"]`. -/
structure RadarrApi where
  add_movie : ProviderId → String → Option Int → Except String String :=
    fun _ _ _ => .error ""

/-- Oracle for `api/sonarr.py` `SonarrApi.add_series`; `Except.error` models a raised
`SonarrApiError`, `Except.ok msg` the returned `result["message"]`. -/
structure SonarrApi where
  add_series : ProviderId → String → Except String String := fun _ _ => .error ""

/-! ## Sync orchestrator (`cli/logic/sync_manager.py`)

The Python `SyncManager` holds its collaborators; the mutable SQLite state is
threaded explicitly as a `Database` value.  `now` models `datetime.now()` for
one pass.  Raised exceptions are modelled as `Except.error` with the
exception text; an uncaught exception aborts the pass with the database in
whatever state the committed writes left it. -/

structure SyncManager where
  plex : PlexApi := {}
  sonarr : Option SonarrApi := none
  radarr : Option RadarrApi := none
  tmdb : Option TmdbApi := none
  dry_run : Bool := false
  force_refresh : Bool := false
  now : Nat := 0

/-- Result of one `_sync_movie` / `_sync_tv_show` / `_sync_item` call that
returned normally: the `SyncResult`, the database state afterwards, and
instrumentation counters for the external calls made (destination-adapter
add calls, TMDB find lookups). -/
structure StepOut where
  result : SyncResult
  db : Database
  addMovieCalls : Nat := 0
  addSeriesCalls : Nat := 0
  tmdbFindCalls : Nat := 0
deriving DecidableEq, Repr

/-- The exception text for the failing relative import at
sync_manager.py line 153: `from .api.letterboxd import LetterboxdApi` is
resolved relative to the package `lumarr.cli.logic`, which has no `api`
subpackage (the working top-level imports of the same file use three dots),
so reaching that line raises `ModuleNotFoundError`. -/
def moduleNotFoundLetterboxd : String :=
  "ModuleNotFoundError: No module named lumarr.cli.logic.api"

/-- The Letterboxd lazy-resolution block of `_sync_movie` (sync_manager.py
lines 141-177): when the item carries a Letterboxd id and slug but no TMDB
id, consult the `letterboxd_metadata` cache; on a cached truthy `tmdb_id`
(the `cached.get("tmdb_id")` truthiness test at line 146) use it.  On a
cache miss the source reaches the broken relative import at line 153 and
raises `ModuleNotFoundError` — nothing in `_sync_movie` or `sync` catches
it — so the scrape-and-upsert code at lines 155-177 is unreachable and has
no counterpart here.  Returns the possibly-enriched item and the database,
or the raised exception. -/
def SyncManager.lbResolveMovie (m : SyncManager) (db : Database)
    (item : WatchlistItem) : Except String (WatchlistItem × Database) :=
  if truthy item.letterboxd_id && truthy item.letterboxd_slug &&
      !truthy item.provider_ids.tmdb_id then
    let cached := db.get_letterboxd_metadata (item.letterboxd_id.getD "")
    if cached.isSome && truthy (cached.bind (fun c => c.tmdb_id)) then
      .ok ({ item with provider_ids :=
          { item.provider_ids with tmdb_id := cached.bind (fun c => c.tmdb_id) } },
        db)
    else
      .error moduleNotFoundLetterboxd
  else .ok (item, db)

/-- The TMDB enhancement block shared by `_sync_movie` / `_sync_tv_show`
(`if self.tmdb and self.tmdb.is_configured(): item.provider_ids =
self.tmdb.enhance_provider_ids(item.provider_ids, kind)`).  Returns the item
with updated ids and the number of TMDB find calls issued. -/
def SyncManager.tmdbEnhance (m : SyncManager) (item : WatchlistItem)
    (kind : String) : WatchlistItem × Nat :=
  match m.tmdb with
  | none => (item, 0)
  | some t =>
    if t.is_configured then
      let out := t.enhance_provider_ids item.provider_ids kind
      ({ item with provider_ids := out.1 }, out.2.length)
    else (item, 0)

/-- The error-message construction of `_sync_movie` (lines 196-209) when no
TMDB id is available after enhancement. -/
def SyncManager.movieFailMessage (m : SyncManager) (item : WatchlistItem) : String :=
  if truthy item.provider_ids.imdb_id then
    if !(match m.tmdb with | none => false | some t => t.is_configured) then
      "No TMDB ID found - only have IMDB ID (" ++ item.provider_ids.imdb_id.getD "" ++
      "). Configure TMDB API key to enable IMDB-to-TMDB conversion."
    else
      "No TMDB ID found - IMDB lookup failed for " ++ item.provider_ids.imdb_id.getD "" ++
      ". Movie may not be in TMDB database."
  else "No TMDB ID or IMDB ID found - required for Radarr"

/-- Embedding of `SyncManager._sync_movie` (sync_manager.py lines 115-279).
The only statement in it that can raise besides the guarded Radarr call is
the lazy-resolution block (see `lbResolveMovie`); its `ModuleNotFoundError`
is not caught (the `except RadarrApiError` clause matches only the adapter
error), so it propagates as `Except.error`. -/
def SyncManager.sync_movie (m : SyncManager) (db : Database)
    (item : WatchlistItem) : Except String StepOut :=
  match m.radarr with
  | none =>
    .ok { result := ⟨item, .skipped, "Radarr not configured", "radarr"⟩, db := db }
  | some radarr =>
    if db.is_synced item.rating_key "radarr" then
      .ok { result := ⟨item, .skipped, "Already synced to Radarr", "radarr"⟩, db := db }
    else
      match m.lbResolveMovie db item with
      | .error err => .error err
      | .ok (item1, db1) =>
        let e := m.tmdbEnhance item1 "movie"
        let item2 := e.1
        let finds := e.2
        if !truthy item2.provider_ids.tmdb_id then
          let message := m.movieFailMessage item2
          .ok { result := ⟨item2, .failed, message, "radarr"⟩,
                db := db1.record_sync m.now item.rating_key item.title
                  item.media_type "radarr" .failed none none
                  item2.provider_ids.imdb_id (some message),
                tmdbFindCalls := finds }
        else if m.dry_run then
          .ok { result := ⟨item2, .success,
                  "[DRY RUN] Would add to Radarr (TMDB: " ++
                    item2.provider_ids.tmdb_id.getD "" ++ ")", "radarr"⟩,
                db := db1, tmdbFindCalls := finds }
        else
          match radarr.add_movie item2.provider_ids item2.title item2.year with
          | .ok msg =>
            .ok { result := ⟨item2, .success, msg, "radarr"⟩,
                  db := db1.record_sync m.now item.rating_key item.title
                    item.media_type "radarr" .success item2.provider_ids.tmdb_id
                    none item2.provider_ids.imdb_id none,
                  addMovieCalls := 1, tmdbFindCalls := finds }
          | .error e =>
            .ok { result := ⟨item2, .failed, e, "radarr"⟩,
                  db := db1.record_sync m.now item.rating_key item.title
                    item.media_type "radarr" .failed item2.provider_ids.tmdb_id
                    none none (some e),
                  addMovieCalls := 1, tmdbFindCalls := finds }

/-- The error-message construction of `_sync_tv_show` (lines 324-342) when no
TVDB id is available after enhancement. -/
def SyncManager.showFailMessage (m : SyncManager) (item : WatchlistItem) : String :=
  if truthy item.provider_ids.tmdb_id || truthy item.provider_ids.imdb_id then
    if !(match m.tmdb with | none => false | some t => t.is_configured) then
      let available_ids :=
        (if truthy item.provider_ids.tmdb_id then
          ["TMDB: " ++ item.provider_ids.tmdb_id.getD ""] else []) ++
        (if truthy item.provider_ids.imdb_id then
          ["IMDB: " ++ item.provider_ids.imdb_id.getD ""] else [])
      "No TVDB ID found - have " ++ String.intercalate ", " available_ids ++
      ". Configure TMDB API key to enable ID conversion."
    else
      "No TVDB ID found - TMDB lookup failed. Show may not be in TMDB/TVDB database."
  else "No TVDB ID found - required for Sonarr"

/-- Embedding of `SyncManager._sync_tv_show` (sync_manager.py lines 281-413). -/
def SyncManager.sync_tv_show (m : SyncManager) (db : Database)
    (item : WatchlistItem) : StepOut :=
  match m.sonarr with
  | none =>
    { result := ⟨item, .skipped, "Sonarr not configured", "sonarr"⟩, db := db }
  | some sonarr =>
    if db.is_synced item.rating_key "sonarr" then
      { result := ⟨item, .skipped, "Already synced to Sonarr", "sonarr"⟩, db := db }
    else
      let e := m.tmdbEnhance item "show"
      let item2 := e.1
      let finds := e.2
      if !truthy item2.provider_ids.tvdb_id then
        let message := m.showFailMessage item2
        { result := ⟨item2, .failed, message, "sonarr"⟩,
          db := db.record_sync m.now item.rating_key item.title item.media_type
            "sonarr" .failed item2.provider_ids.tmdb_id none
            item2.provider_ids.imdb_id (some message),
          tmdbFindCalls := finds }
      else if m.dry_run then
        { result := ⟨item2, .success,
            "[DRY RUN] Would add to Sonarr (TVDB: " ++
              item2.provider_ids.tvdb_id.getD "" ++ ")", "sonarr"⟩,
          db := db, tmdbFindCalls := finds }
      else
        match sonarr.add_series item2.provider_ids item2.title with
        | .ok msg =>
          { result := ⟨item2, .success, msg, "sonarr"⟩,
            db := db.record_sync m.now item.rating_key item.title item.media_type
              "sonarr" .success item2.provider_ids.tmdb_id
              item2.provider_ids.tvdb_id item2.provider_ids.imdb_id none,
            addSeriesCalls := 1, tmdbFindCalls := finds }
        | .error err =>
          { result := ⟨item2, .failed, err, "sonarr"⟩,
            db := db.record_sync m.now item.rating_key item.title item.media_type
              "sonarr" .failed none item2.provider_ids.tvdb_id none (some err),
            addSeriesCalls := 1, tmdbFindCalls := finds }

/-- Embedding of `SyncManager._sync_item`: dispatch on media kind.  `MediaType` has
exactly the two constructors, so the unsupported-media-type fallback of the
source is unreachable and has no counterpart here.  Only the movie path can
raise (the broken lazy import); the series path always returns. -/
def SyncManager.sync_item (m : SyncManager) (db : Database)
    (item : WatchlistItem) : Except String StepOut :=
  match item.media_type with
  | .movie => m.sync_movie db item
  | .tv_show => .ok (m.sync_tv_show db item)

/-- The per-item bucket accounting of the `sync` loop (lines 63-75): append
the result, then increment exactly one of the counters according to the
result status and the media kind of the loop item. -/
def summaryAdd (s : SyncSummary) (item : WatchlistItem) (result : SyncResult) :
    SyncSummary :=
  let s := { s with results := s.results ++ [result] }
  if result.status = .success then
    match item.media_type with
    | .movie => { s with movies_added := s.movies_added + 1 }
    | .tv_show => { s with shows_added := s.shows_added + 1 }
  else if result.status = .skipped then { s with skipped := s.skipped + 1 }
  else if result.status = .failed then { s with failed := s.failed + 1 }
  else s

/-- Aggregate outcome of one `sync()` pass: the summary, the database state
afterwards, and the accumulated instrumentation counters.  `raised` is the
exception-in-flight marker: `some e` means an item raised `e`, the loop was
abandoned at that point (no further items processed), the database holds the
writes committed before the raise and the summary object of the source is
lost with the stack frame (kept here only up to the aborted item). -/
structure SyncOut where
  summary : SyncSummary
  db : Database
  addMovieCalls : Nat := 0
  addSeriesCalls : Nat := 0
  tmdbFindCalls : Nat := 0
  raised : Option String := none
deriving DecidableEq, Repr

/-- The `for item in watchlist` loop of `sync` (lines 63-75), processing the
remaining items against the accumulated state; an uncaught per-item
exception stops the loop immediately. -/
def SyncManager.syncLoop (m : SyncManager) (acc : SyncOut) :
    List WatchlistItem → SyncOut
  | [] => acc
  | item :: rest =>
    match m.sync_item acc.db item with
    | .error e => { acc with raised := some e }
    | .ok step =>
      m.syncLoop
        { summary := summaryAdd acc.summary item step.result,
          db := step.db,
          addMovieCalls := acc.addMovieCalls + step.addMovieCalls,
          addSeriesCalls := acc.addSeriesCalls + step.addSeriesCalls,
          tmdbFindCalls := acc.tmdbFindCalls + step.tmdbFindCalls,
          raised := acc.raised }
        rest

/-- The body of `sync` after the watchlist fetch succeeded: `summary.total =
len(watchlist)` is set before the loop runs. -/
def SyncManager.syncItems (m : SyncManager) (db : Database)
    (watchlist : List WatchlistItem) : SyncOut :=
  m.syncLoop { summary := { total := watchlist.length }, db := db } watchlist

/-- Embedding of `SyncManager.sync` (lines 48-90): fetch the watchlist, then process every
item; a `PlexApiError` from the fetch is re-raised (`Except.error`), adapter
failures are values caught per item, and an uncaught per-item exception
(the `raised` marker, i.e. the broken lazy import) propagates out of `sync`
— its `except` clause matches only `PlexApiError`. -/
def SyncManager.sync (m : SyncManager) (db : Database) : Except String SyncOut :=
  match m.plex.get_watchlist m.force_refresh with
  | .error e => .error e
  | .ok watchlist =>
    match (m.syncItems db watchlist).raised with
    | some e => .error e
    | none => .ok (m.syncItems db watchlist)

/-! ## Follow-mode tick logic (`cli/logic/follow_mode.py`)

One iteration of the monitoring loop handles each source timer.  Times are
`time.time()` values, modelled as `Nat` seconds (the loop always has
`last_*_sync ≤ current_time`).  The sync outcome oracle says whether the
guarded call returned normally (`.ok`) or raised (`.error`). -/

/-- The Plex branch of the loop body (follow_mode.py lines 117-135): when the
interval has elapsed, run `sync_manager.sync()`; the source assigns
`last_plex_sync = current_time` on the line after the call, inside the `try`,
so the assignment runs only when the call returns without raising.  Returns
the new `last_plex_sync` and whether a tick ran. -/
def plexTick (plex_interval current_time last_plex_sync : Nat)
    (syncOutcome : Except String SyncOut) : Nat × Bool :=
  if plex_interval ≤ current_time - last_plex_sync then
    match syncOutcome with
    | .ok _ => (current_time, true)
    | .error _ => (last_plex_sync, true)
  else (last_plex_sync, false)

/-- The Letterboxd branch of the loop body (follow_mode.py lines 138-164),
same shape but additionally guarded by `has_letterboxd`; the outcome of
`_sync_letterboxd_items` is an optional summary (`None` when nothing to do)
or a raised exception. -/
def lboxTick (has_letterboxd : Bool) (lbox_interval current_time last_lbox_sync : Nat)
    (syncOutcome : Except String (Option SyncSummary)) : Nat × Bool :=
  if has_letterboxd && decide (lbox_interval ≤ current_time - last_lbox_sync) then
    match syncOutcome with
    | .ok _ => (current_time, true)
    | .error _ => (last_lbox_sync, true)
  else (last_lbox_sync, false)

/-- Sum of the four outcome buckets of a `SyncSummary`. -/
def SyncSummary.bucketSum (s : SyncSummary) : Nat :=
  s.movies_added + s.shows_added + s.skipped + s.failed

/-! ## Ledger lemmas -/

/-- Lemma: `is_synced` holds exactly when some ledger row matches the exact pair
with `Success` status. -/
lemma is_synced_iff_exists (db : Database) (k svc : String) :
    db.is_synced k svc = true ↔
      ∃ r ∈ db.synced_items, r.rating_key = k ∧ r.target_service = svc ∧
        r.status = RequestStatus.success.value := by
  unfold Database.is_synced
  rw [decide_eq_true_iff, ← List.countP_eq_length_filter, List.countP_pos_iff]
  constructor
  · rintro ⟨r, hr, hp⟩
    simp only [Bool.and_eq_true, beq_iff_eq] at hp
    exact ⟨r, hr, hp.1.1, hp.1.2, hp.2⟩
  · rintro ⟨r, hr, h1, h2, h3⟩
    refine ⟨r, hr, ?_⟩
    simp [h1, h2, h3]

/-- After `record_sync` on a pair, the ledger rows for that exact pair are
just the newly inserted row. -/
lemma rowsFor_record_sync_self (db : Database) (now : Nat) (k t : String)
    (mt : MediaType) (svc : String) (st : RequestStatus) (a b c d : Option String) :
    (db.record_sync now k t mt svc st a b c d).rowsFor k svc =
      [{ rating_key := k, title := t, media_type := mt.value, tmdb_id := a,
         tvdb_id := b, imdb_id := c, target_service := svc, status := st.value,
         synced_at := now, error_message := d }] := by
  unfold Database.record_sync Database.rowsFor
  rw [List.filter_append]
  simp [List.filter_filter]

/-- Lemma: `record_sync` leaves the ledger rows of every other pair unchanged. -/
lemma rowsFor_record_sync_other (db : Database) (now : Nat) (k t : String)
    (mt : MediaType) (svc : String) (st : RequestStatus) (a b c d : Option String)
    (k' svc' : String) (h : k' ≠ k ∨ svc' ≠ svc) :
    (db.record_sync now k t mt svc st a b c d).rowsFor k' svc' =
      db.rowsFor k' svc' := by
  unfold Database.record_sync Database.rowsFor
  rw [List.filter_append, List.filter_filter]
  have h2 : ∀ r : SyncedItemRow,
      ((r.rating_key == k' && r.target_service == svc') &&
        !(r.rating_key == k && r.target_service == svc)) =
      (r.rating_key == k' && r.target_service == svc') := by
    intro r
    by_cases hb : (r.rating_key == k && r.target_service == svc) = true
    · simp only [Bool.and_eq_true, beq_iff_eq] at hb
      have hfalse : (r.rating_key == k' && r.target_service == svc') = false := by
        rcases h with h | h
        · have hne : r.rating_key ≠ k' := by
            rw [hb.1]; exact fun hh => h hh.symm
          simp [hne]
        · have hne : r.target_service ≠ svc' := by
            rw [hb.2]; exact fun hh => h hh.symm
          simp [hne]
      simp [hfalse]
    · simp only [Bool.not_eq_true] at hb
      simp [hb]
  simp only [h2]
  rcases h with h | h
  · have hb : (k == k' && svc == svc') = false := by
      have hne : k ≠ k' := fun hh => h hh.symm
      simp [hne]
    simp [List.filter, hb]
  · have hb : (k == k' && svc == svc') = false := by
      have hne : svc ≠ svc' := fun hh => h hh.symm
      simp [hne]
    simp [List.filter, hb]

/-- Recording a `Success` outcome makes `is_synced` true for that pair. -/
lemma is_synced_record_success (db : Database) (now : Nat) (k t : String)
    (mt : MediaType) (svc : String) (a b c d : Option String) :
    (db.record_sync now k t mt svc .success a b c d).is_synced k svc = true := by
  rw [is_synced_iff_exists]
  refine ⟨⟨k, t, mt.value, a, b, c, svc, RequestStatus.success.value, now, d⟩,
    ?_, rfl, rfl, rfl⟩
  unfold Database.record_sync
  simp

/-- Recording a `Failed` outcome replaces any row for the pair, so
`is_synced` is false for that pair afterwards. -/
lemma is_synced_record_failed (db : Database) (now : Nat) (k t : String)
    (mt : MediaType) (svc : String) (a b c d : Option String) :
    (db.record_sync now k t mt svc .failed a b c d).is_synced k svc = false := by
  rw [Bool.eq_false_iff]
  intro htrue
  rw [is_synced_iff_exists] at htrue
  rcases htrue with ⟨r, hr, h1, h2, h3⟩
  unfold Database.record_sync at hr
  simp only [List.mem_append, List.mem_filter, List.mem_singleton] at hr
  rcases hr with ⟨_, hfilt⟩ | hnew
  · rw [h1, h2] at hfilt
    simp at hfilt
  · rw [hnew] at h3
    simp [RequestStatus.value] at h3
/-- Lemma: `record_sync` for one pair does not change `is_synced` of any other
pair. -/
lemma is_synced_record_other (db : Database) (now : Nat) (k t : String)
    (mt : MediaType) (svc : String) (st : RequestStatus) (a b c d : Option String)
    (k' svc' : String) (h : k' ≠ k ∨ svc' ≠ svc) :
    (db.record_sync now k t mt svc st a b c d).is_synced k' svc' =
      db.is_synced k' svc' := by
  rw [Bool.eq_iff_iff, is_synced_iff_exists, is_synced_iff_exists]
  constructor
  · rintro ⟨r, hr, h1, h2, h3⟩
    unfold Database.record_sync at hr
    simp only [List.mem_append, List.mem_filter, List.mem_singleton] at hr
    rcases hr with ⟨hmem, _⟩ | hnew
    · exact ⟨r, hmem, h1, h2, h3⟩
    · exfalso
      rcases h with h | h
      · exact h (by rw [← h1, hnew])
      · exact h (by rw [← h2, hnew])
  · rintro ⟨r, hr, h1, h2, h3⟩
    refine ⟨r, ?_, h1, h2, h3⟩
    unfold Database.record_sync
    simp only [List.mem_append, List.mem_filter, List.mem_singleton]
    left
    refine ⟨hr, ?_⟩
    rcases h with h | h
    · have : r.rating_key ≠ k := by rw [h1]; exact h
      simp [this]
    · have : r.target_service ≠ svc := by rw [h2]; exact h
      simp [this]

/-- Lemma: `find?` skips a prefix on which the predicate is everywhere false. -/
lemma find?_append_of_none {α : Type} (p : α → Bool) (l₂ : List α) :
    ∀ l₁ : List α, (∀ x ∈ l₁, p x = false) →
      (l₁ ++ l₂).find? p = l₂.find? p := by
  intro l₁
  induction l₁ with
  | nil => intro _; simp
  | cons a l ih =>
    intro h
    have ha := h a (by simp)
    simp only [List.cons_append, List.find?, ha]
    exact ih (fun x hx => h x (by simp [hx]))

/-- Reading the Letterboxd cache right after an upsert returns exactly the
upserted row; its `fetched_at` is stamped iff the upsert carried a truthy
`tmdb_id`. -/
lemma get_letterboxd_after_set (db : Database) (now : Nat)
    (id slug title : String) (year : Option Int) (tmdb : Option String) :
    (db.set_letterboxd_metadata now id slug title year tmdb).get_letterboxd_metadata id =
      some { letterboxd_id := id, slug := slug, tmdb_id := tmdb,
             title := some title, year := year,
             fetched_at := if truthy tmdb then some now else none } := by
  unfold Database.set_letterboxd_metadata Database.get_letterboxd_metadata
  rw [find?_append_of_none]
  · simp [List.find?]
  · intro x hx
    simp only [List.mem_filter, Bool.not_eq_true'] at hx
    exact hx.2

/-! ## Orchestrator reduction lemmas -/

/-- The Letterboxd lazy-resolution block is a no-op when the item already
carries a truthy TMDB id. -/
lemma lbResolveMovie_tmdb_present (m : SyncManager) (db : Database)
    (item : WatchlistItem) (h : truthy item.provider_ids.tmdb_id = true) :
    m.lbResolveMovie db item = .ok (item, db) := by
  unfold SyncManager.lbResolveMovie
  simp [h]

/-- Lemma: `enhance_provider_ids` returns its input with no lookup calls when the
TMDB id is already present. -/
lemma enhance_tmdb_present (t : TmdbApi) (p : ProviderId) (mt : String)
    (h : truthy p.tmdb_id = true) : t.enhance_provider_ids p mt = (p, []) := by
  unfold TmdbApi.enhance_provider_ids
  cases hc : t.is_configured <;> simp [hc, h]

/-- The enhancement phase of the orchestrator is a no-op when the TMDB id is
already present. -/
lemma tmdbEnhance_tmdb_present (m : SyncManager) (item : WatchlistItem)
    (kind : String) (h : truthy item.provider_ids.tmdb_id = true) :
    m.tmdbEnhance item kind = (item, 0) := by
  unfold SyncManager.tmdbEnhance
  cases m.tmdb with
  | none => rfl
  | some t => cases hc : t.is_configured <;> simp [hc, enhance_tmdb_present t _ _ h]

/-- Reduction: `_sync_movie` on an already-synced item: skip immediately, no external
calls, no database change. -/
lemma sync_movie_already_synced (m : SyncManager) (db : Database)
    (item : WatchlistItem) (radarr : RadarrApi) (hr : m.radarr = some radarr)
    (hs : db.is_synced item.rating_key "radarr" = true) :
    m.sync_movie db item =
      .ok { result := ⟨item, .skipped, "Already synced to Radarr", "radarr"⟩,
            db := db } := by
  unfold SyncManager.sync_movie
  rw [hr]
  simp [hs]

/-- Reduction: `_sync_movie` when the pair is unsynced, resolution returns (no raise),
dry-run is off and the Radarr add call returns normally. -/
lemma sync_movie_forward_ok (m : SyncManager) (db : Database) (item : WatchlistItem)
    (radarr : RadarrApi) (item1 item2 : WatchlistItem) (db1 : Database)
    (fnd : Nat) (msg : String)
    (hr : m.radarr = some radarr)
    (hs : db.is_synced item.rating_key "radarr" = false)
    (hlb : m.lbResolveMovie db item = .ok (item1, db1))
    (henh : m.tmdbEnhance item1 "movie" = (item2, fnd))
    (hres : truthy item2.provider_ids.tmdb_id = true)
    (hd : m.dry_run = false)
    (hadd : radarr.add_movie item2.provider_ids item2.title item2.year = .ok msg) :
    m.sync_movie db item =
      .ok { result := ⟨item2, .success, msg, "radarr"⟩,
            db := db1.record_sync m.now item.rating_key item.title
              item.media_type "radarr" .success item2.provider_ids.tmdb_id none
              item2.provider_ids.imdb_id none,
            addMovieCalls := 1, tmdbFindCalls := fnd } := by
  unfold SyncManager.sync_movie
  rw [hr]
  simp [hs, hlb, henh, hres, hd, hadd]

/-- Reduction: `_sync_movie` when the pair is unsynced, resolution returns (no raise),
dry-run is off and the Radarr add call raises `RadarrApiError` (caught). -/
lemma sync_movie_forward_err (m : SyncManager) (db : Database) (item : WatchlistItem)
    (radarr : RadarrApi) (item1 item2 : WatchlistItem) (db1 : Database)
    (fnd : Nat) (err : String)
    (hr : m.radarr = some radarr)
    (hs : db.is_synced item.rating_key "radarr" = false)
    (hlb : m.lbResolveMovie db item = .ok (item1, db1))
    (henh : m.tmdbEnhance item1 "movie" = (item2, fnd))
    (hres : truthy item2.provider_ids.tmdb_id = true)
    (hd : m.dry_run = false)
    (hadd : radarr.add_movie item2.provider_ids item2.title item2.year = .error err) :
    m.sync_movie db item =
      .ok { result := ⟨item2, .failed, err, "radarr"⟩,
            db := db1.record_sync m.now item.rating_key item.title
              item.media_type "radarr" .failed item2.provider_ids.tmdb_id none
              none (some err),
            addMovieCalls := 1, tmdbFindCalls := fnd } := by
  unfold SyncManager.sync_movie
  rw [hr]
  simp [hs, hlb, henh, hres, hd, hadd]

/-- Reduction: `_sync_movie` in dry-run mode when resolution returns with a TMDB id:
report success, no add call, no ledger write. -/
lemma sync_movie_dry_run (m : SyncManager) (db : Database) (item : WatchlistItem)
    (radarr : RadarrApi) (item1 item2 : WatchlistItem) (db1 : Database)
    (fnd : Nat)
    (hr : m.radarr = some radarr)
    (hs : db.is_synced item.rating_key "radarr" = false)
    (hlb : m.lbResolveMovie db item = .ok (item1, db1))
    (henh : m.tmdbEnhance item1 "movie" = (item2, fnd))
    (hres : truthy item2.provider_ids.tmdb_id = true)
    (hd : m.dry_run = true) :
    m.sync_movie db item =
      .ok { result := ⟨item2, .success,
              "[DRY RUN] Would add to Radarr (TMDB: " ++
                item2.provider_ids.tmdb_id.getD "" ++ ")", "radarr"⟩,
            db := db1, tmdbFindCalls := fnd } := by
  unfold SyncManager.sync_movie
  rw [hr]
  simp [hs, hlb, henh, hres, hd]

/-- Reduction: `_sync_tv_show` on an already-synced item: skip immediately. -/
lemma sync_tv_show_already_synced (m : SyncManager) (db : Database)
    (item : WatchlistItem) (sonarr : SonarrApi) (hr : m.sonarr = some sonarr)
    (hs : db.is_synced item.rating_key "sonarr" = true) :
    m.sync_tv_show db item =
      { result := ⟨item, .skipped, "Already synced to Sonarr", "sonarr"⟩, db := db } := by
  unfold SyncManager.sync_tv_show
  rw [hr]
  simp [hs]

/-- Reduction: `_sync_tv_show` when the pair is unsynced, resolution succeeds, dry-run
is off and the Sonarr add call returns normally. -/
lemma sync_tv_show_forward_ok (m : SyncManager) (db : Database) (item : WatchlistItem)
    (sonarr : SonarrApi) (item2 : WatchlistItem) (fnd : Nat) (msg : String)
    (hr : m.sonarr = some sonarr)
    (hs : db.is_synced item.rating_key "sonarr" = false)
    (henh : m.tmdbEnhance item "show" = (item2, fnd))
    (hres : truthy item2.provider_ids.tvdb_id = true)
    (hd : m.dry_run = false)
    (hadd : sonarr.add_series item2.provider_ids item2.title = .ok msg) :
    m.sync_tv_show db item =
      { result := ⟨item2, .success, msg, "sonarr"⟩,
        db := db.record_sync m.now item.rating_key item.title item.media_type
          "sonarr" .success item2.provider_ids.tmdb_id
          item2.provider_ids.tvdb_id item2.provider_ids.imdb_id none,
        addSeriesCalls := 1, tmdbFindCalls := fnd } := by
  unfold SyncManager.sync_tv_show
  rw [hr]
  simp [hs, henh, hres, hd, hadd]

/-- Reduction: `_sync_tv_show` in dry-run mode when resolution succeeds: report
success, no add call, no ledger write. -/
lemma sync_tv_show_dry_run (m : SyncManager) (db : Database) (item : WatchlistItem)
    (sonarr : SonarrApi) (item2 : WatchlistItem) (fnd : Nat)
    (hr : m.sonarr = some sonarr)
    (hs : db.is_synced item.rating_key "sonarr" = false)
    (henh : m.tmdbEnhance item "show" = (item2, fnd))
    (hres : truthy item2.provider_ids.tvdb_id = true)
    (hd : m.dry_run = true) :
    m.sync_tv_show db item =
      { result := ⟨item2, .success,
          "[DRY RUN] Would add to Sonarr (TVDB: " ++
            item2.provider_ids.tvdb_id.getD "" ++ ")", "sonarr"⟩,
        db := db, tmdbFindCalls := fnd } := by
  unfold SyncManager.sync_tv_show
  rw [hr]
  simp [hs, henh, hres, hd]

/-- Dispatch reduction for movies. -/
lemma sync_item_movie (m : SyncManager) (db : Database) (item : WatchlistItem)
    (hm : item.media_type = .movie) : m.sync_item db item = m.sync_movie db item := by
  unfold SyncManager.sync_item
  rw [hm]

/-- Dispatch reduction for series. -/
lemma sync_item_tv_show (m : SyncManager) (db : Database) (item : WatchlistItem)
    (hm : item.media_type = .tv_show) :
    m.sync_item db item = .ok (m.sync_tv_show db item) := by
  unfold SyncManager.sync_item
  rw [hm]

/-- Reduction: when `_sync_movie` returns normally, its status is never `Pending`. -/
lemma sync_movie_ok_status_ne_pending (m : SyncManager) (db : Database)
    (item : WatchlistItem) (step : StepOut) (h : m.sync_movie db item = .ok step) :
    step.result.status ≠ .pending := by
  simp only [SyncManager.sync_movie] at h
  repeat' split at h
  all_goals try exact Except.noConfusion h
  all_goals injection h with h2
  all_goals subst h2
  all_goals simp

/-- Reduction: `_sync_tv_show` never produces the `Pending` status. -/
lemma sync_tv_show_status_ne_pending (m : SyncManager) (db : Database)
    (item : WatchlistItem) : (m.sync_tv_show db item).result.status ≠ .pending := by
  simp only [SyncManager.sync_tv_show]
  repeat' split
  all_goals simp

/-- Reduction: when `_sync_item` returns normally, its status is never `Pending`. -/
lemma sync_item_ok_status_ne_pending (m : SyncManager) (db : Database)
    (item : WatchlistItem) (step : StepOut) (h : m.sync_item db item = .ok step) :
    step.result.status ≠ .pending := by
  unfold SyncManager.sync_item at h
  cases hm : item.media_type <;> rw [hm] at h
  · exact sync_movie_ok_status_ne_pending m db item step h
  · simp only [Except.ok.injEq] at h
    rw [← h]
    exact sync_tv_show_status_ne_pending m db item

/-- Appending one result grows the results list by one and leaves `total`
unchanged. -/
lemma summaryAdd_results_length (s : SyncSummary) (item : WatchlistItem)
    (r : SyncResult) :
    (summaryAdd s item r).results.length = s.results.length + 1 ∧
    (summaryAdd s item r).total = s.total := by
  unfold summaryAdd
  split
  · cases item.media_type <;> simp
  · split
    · simp
    · split <;> simp

/-- A non-pending result increments exactly one bucket. -/
lemma summaryAdd_bucketSum (s : SyncSummary) (item : WatchlistItem)
    (r : SyncResult) (h : r.status ≠ .pending) :
    (summaryAdd s item r).bucketSum = s.bucketSum + 1 := by
  unfold summaryAdd SyncSummary.bucketSum
  cases hst : r.status with
  | pending => exact absurd hst h
  | success => cases item.media_type <;> simp [hst] <;> omega
  | failed => simp [hst]; omega
  | skipped => simp [hst]; omega

/-- Loop invariant of the `sync` loop on runs that finish without a raise:
`total` never changes, the results list grows by one per item, and the four
buckets absorb exactly one count per item. -/
lemma syncLoop_counts (m : SyncManager) :
    ∀ (l : List WatchlistItem) (acc : SyncOut),
    (m.syncLoop acc l).raised = none →
    (m.syncLoop acc l).summary.total = acc.summary.total ∧
    (m.syncLoop acc l).summary.results.length = acc.summary.results.length + l.length ∧
    (m.syncLoop acc l).summary.bucketSum = acc.summary.bucketSum + l.length := by
  intro l
  induction l with
  | nil => intro acc _; simp [SyncManager.syncLoop]
  | cons item rest ih =>
    intro acc hnr
    rcases hstep : m.sync_item acc.db item with e | step
    · exfalso
      unfold SyncManager.syncLoop at hnr
      rw [hstep] at hnr
      simp at hnr
    · unfold SyncManager.syncLoop at hnr ⊢
      simp only [hstep] at hnr ⊢
      obtain ⟨h1, h2, h3⟩ := ih _ hnr
      obtain ⟨hlen, htot⟩ := summaryAdd_results_length acc.summary item step.result
      have hsum := summaryAdd_bucketSum acc.summary item step.result
        (sync_item_ok_status_ne_pending m acc.db item step hstep)
      refine ⟨?_, ?_, ?_⟩
      · rw [h1]; exact htot
      · rw [h2, hlen]; simp only [List.length_cons]; omega
      · rw [h3, hsum]; simp only [List.length_cons]; omega

/-- One-item reduction of the loop body of `sync` when the item returns
normally. -/
lemma syncItems_singleton_ok (m : SyncManager) (db : Database)
    (item : WatchlistItem) (step : StepOut) (h : m.sync_item db item = .ok step) :
    m.syncItems db [item] =
      { summary := summaryAdd { total := 1 } item step.result,
        db := step.db,
        addMovieCalls := step.addMovieCalls,
        addSeriesCalls := step.addSeriesCalls,
        tmdbFindCalls := step.tmdbFindCalls,
        raised := none } := by
  simp [SyncManager.syncItems, SyncManager.syncLoop, h]

/-! ## Claim theorems -/

/-- Claim C7: `record_sync` has upsert semantics on the conflict key
`(external_key, destination_service)`.  Recording `Failed` then `Success`
for the same pair leaves exactly one ledger row for that pair, in `Success`
state, with every field of the new row replacing the old.  The operation is
a total function, so it never raises on a duplicate key. -/
theorem record_sync_upsert_failed_then_success :
    ∀ (db : Database) (now1 now2 : Nat) (k t1 t2 : String) (mt1 mt2 : MediaType)
      (svc : String) (a1 b1 c1 d1 a2 b2 c2 d2 : Option String),
    ((db.record_sync now1 k t1 mt1 svc .failed a1 b1 c1 d1).record_sync
        now2 k t2 mt2 svc .success a2 b2 c2 d2).rowsFor k svc =
      [{ rating_key := k, title := t2, media_type := mt2.value, tmdb_id := a2,
         tvdb_id := b2, imdb_id := c2, target_service := svc,
         status := RequestStatus.success.value, synced_at := now2,
         error_message := d2 }] := by
  intro db now1 now2 k t1 t2 mt1 mt2 svc a1 b1 c1 d1 a2 b2 c2 d2
  exact rowsFor_record_sync_self _ now2 k t2 mt2 svc .success a2 b2 c2 d2

/-- Claim C8: `is_synced` is true iff a `Success`-status ledger row exists
for the exact `(external_key, destination_service)` pair, and recording a
`Failed` outcome for a pair never satisfies `is_synced` — only `Success` is
sticky, so a failed item is retried on the next run. -/
theorem is_synced_iff_success_row :
    ∀ (db : Database) (k svc : String),
    (db.is_synced k svc = true ↔
      ∃ r ∈ db.synced_items, r.rating_key = k ∧ r.target_service = svc ∧
        r.status = RequestStatus.success.value) ∧
    (∀ (now : Nat) (t : String) (mt : MediaType) (a b c d : Option String),
      (db.record_sync now k t mt svc .failed a b c d).is_synced k svc = false) :=
  fun db k svc =>
    ⟨is_synced_iff_exists db k svc,
     fun now t mt a b c d => is_synced_record_failed db now k t mt svc a b c d⟩

/-- Claim C6, counterexample: an attempted-and-failed resolution upsert
(`tmdb_id = None`) stores the cache entry with `fetched_at = None` — the
source computes `fetched_at = datetime.now().isoformat() if tmdb_id else
None` — contradicting the claim that after any attempted resolution the
stored entry has a non-null `resolved_at`. -/
theorem set_letterboxd_metadata_failed_attempt_unstamped :
    (Database.set_letterboxd_metadata {} 5 "lb1" "slug1" "Title" none
        none).get_letterboxd_metadata "lb1" =
      some { letterboxd_id := "lb1", slug := "slug1", tmdb_id := none,
             title := some "Title", year := none, fetched_at := none } := by
  decide

/-- Claim C6, amended: for every upsert of an external-id cache entry, the
stored row is exactly the upserted one and its `fetched_at` timestamp is
stamped iff the upsert carries a truthy resolved id — on failure the entry
is persisted with both `tmdb_id` and `fetched_at` null, the presence of the
row itself being the record of the attempt. -/
theorem set_letterboxd_metadata_stamps_iff_resolved :
    ∀ (db : Database) (now : Nat) (id slug title : String) (year : Option Int)
      (tmdb : Option String),
    (db.set_letterboxd_metadata now id slug title year tmdb).get_letterboxd_metadata id =
      some { letterboxd_id := id, slug := slug, tmdb_id := tmdb,
             title := some title, year := year,
             fetched_at := if truthy tmdb then some now else none } :=
  fun db now id slug title year tmdb =>
    get_letterboxd_after_set db now id slug title year tmdb

/-- Claim C5, counterexample: with interval 5, last run at 0 and current
time 10 the timer has elapsed, but a failing tick leaves the last-run
timestamp at 0 instead of updating it to 10 (the source assigns
`last_plex_sync = current_time` inside the `try`, after the call), so one
second later the elapsed check fires again — an immediate retry, not a tick
one full interval later. -/
theorem plexTick_failure_stalls_timestamp :
    (plexTick 5 10 0 (Except.error "boom")).1 = 0 ∧
    (plexTick 5 10 0 (Except.error "boom")).2 = true ∧
    (plexTick 5 10 0 (Except.error "boom")).1 ≠ 10 ∧
    (plexTick 5 11 (plexTick 5 10 0 (Except.error "boom")).1
      (Except.ok { summary := {}, db := {} })).2 = true := by
  refine ⟨rfl, rfl, by decide, rfl⟩

/-- Claim C5, amended: on an elapsed tick the last-run timestamp advances to
the current time only when the tick returns normally; when the tick raises,
the timestamp is left unchanged, so the failed source is retried on the next
loop iteration rather than one full interval later.  Both the Plex and the
Letterboxd timers behave this way. -/
theorem tick_timestamp_updates_only_on_success :
    ∀ (interval t last : Nat) (o : Except String SyncOut)
      (o2 : Except String (Option SyncSummary)),
    interval ≤ t - last →
    (∀ s, o = .ok s → (plexTick interval t last o).1 = t) ∧
    (∀ e, o = .error e → (plexTick interval t last o).1 = last) ∧
    (plexTick interval t last o).2 = true ∧
    (∀ s, o2 = .ok s → (lboxTick true interval t last o2).1 = t) ∧
    (∀ e, o2 = .error e → (lboxTick true interval t last o2).1 = last) ∧
    (lboxTick true interval t last o2).2 = true := by
  intro interval t last o o2 h
  refine ⟨?_, ?_, ?_, ?_, ?_, ?_⟩
  · intro s hs; subst hs; simp [plexTick, h]
  · intro e he; subst he; simp [plexTick, h]
  · cases o <;> simp [plexTick, h]
  · intro s hs; subst hs; simp [lboxTick, h]
  · intro e he; subst he; simp [lboxTick, h]
  · cases o2 <;> simp [lboxTick, h]

/-- Witness for the amended C5 theorem at interval 5, current time 10, last
run 0: a failed Plex tick keeps the timestamp at 0 and a successful
Letterboxd tick advances it to 10. -/
theorem tick_timestamp_updates_only_on_success_witness :
    (plexTick 5 10 0 (Except.error "x")).1 = 0 ∧
    (lboxTick true 5 10 0 (Except.ok none)).1 = 10 := by
  have h := tick_timestamp_updates_only_on_success 5 10 0 (Except.error "x")
    (Except.ok none) (by decide)
  exact ⟨h.2.1 "x" rfl, h.2.2.2.1 none rfl⟩

/-- Claim C9: the enrichment contract of `enhance_provider_ids`.  When the
lookup service is not configured, or the TMDB id is already present, the
identifier set is returned unchanged with zero lookup calls.  Otherwise the
reverse lookup tries the TVDB id first and the IMDB id second, stopping at
the first hit.  The function is total (never raises) and returns its input
unchanged whenever every lookup fails. -/
theorem enhance_provider_ids_contract :
    ∀ (t : TmdbApi) (p : ProviderId) (mt : String),
    (t.is_configured = false → t.enhance_provider_ids p mt = (p, [])) ∧
    (truthy p.tmdb_id = true → t.enhance_provider_ids p mt = (p, [])) ∧
    (t.is_configured = true → truthy p.tmdb_id = false → truthy p.tvdb_id = true →
      t.find (p.tvdb_id.getD "") "tvdb_id" ≠ none →
      (t.enhance_provider_ids p mt).2 = [(p.tvdb_id.getD "", "tvdb_id")]) ∧
    (t.is_configured = true → truthy p.tmdb_id = false → truthy p.tvdb_id = true →
      t.find (p.tvdb_id.getD "") "tvdb_id" = none → truthy p.imdb_id = true →
      (t.enhance_provider_ids p mt).2 =
        [(p.tvdb_id.getD "", "tvdb_id"), (p.imdb_id.getD "", "imdb_id")]) ∧
    (t.is_configured = true → truthy p.tmdb_id = false → truthy p.tvdb_id = false →
      truthy p.imdb_id = true →
      (t.enhance_provider_ids p mt).2 = [(p.imdb_id.getD "", "imdb_id")]) ∧
    ((∀ eid src, t.find eid src = none) →
      (t.enhance_provider_ids p mt).1 = p) := by
  intro t p mt
  refine ⟨?_, ?_, ?_, ?_, ?_, ?_⟩
  · intro h
    unfold TmdbApi.enhance_provider_ids
    simp [h]
  · intro h
    exact enhance_tmdb_present t p mt h
  · intro hc hm hv hfind
    unfold TmdbApi.enhance_provider_ids TmdbApi.find_by_external_id
    rcases hf : t.find (p.tvdb_id.getD "") "tvdb_id" with _ | r
    · exact absurd hf hfind
    · simp only [hc, hm, hv, hf, Bool.not_true, Bool.false_eq_true, if_false,
        if_true, Option.isNone_some, Bool.false_and]
      repeat' split
      all_goals simp
  · intro hc hm hv hf hi
    unfold TmdbApi.enhance_provider_ids TmdbApi.find_by_external_id
    simp only [hc, hm, hv, hf, hi, Bool.not_true, Bool.false_eq_true, if_false,
      if_true, Option.isNone_none, Bool.true_and]
    rcases hf2 : t.find (p.imdb_id.getD "") "imdb_id" with _ | r
    · simp
    · repeat' split
      all_goals simp
  · intro hc hm hv hi
    unfold TmdbApi.enhance_provider_ids TmdbApi.find_by_external_id
    simp only [hc, hm, hv, hi, Bool.not_true, Bool.false_eq_true, if_false,
      if_true, Option.isNone_none, Bool.true_and]
    rcases hf2 : t.find (p.imdb_id.getD "") "imdb_id" with _ | r
    · simp [hf2]
    · simp only [hf2]
      repeat' split
      all_goals simp
  · intro hall
    unfold TmdbApi.enhance_provider_ids TmdbApi.find_by_external_id
    cases hc : t.is_configured <;>
      cases hm : truthy p.tmdb_id <;>
        cases hv : truthy p.tvdb_id <;>
          cases hi : truthy p.imdb_id <;> simp [hall]

/-- Witness for the C9 contract: a configured client whose lookups all miss
leaves an IMDB-only identifier set unchanged after one IMDB lookup call, and
an identifier set that already has its TMDB id is returned unchanged with no
calls. -/
theorem enhance_provider_ids_contract_witness :
    (TmdbApi.enhance_provider_ids
      { api_key := some "k", find := fun _ _ => none }
      { imdb_id := some "tt0133093" } "movie").2 = [("tt0133093", "imdb_id")] ∧
    (TmdbApi.enhance_provider_ids
      { api_key := some "k", find := fun _ _ => none }
      { imdb_id := some "tt0133093" } "movie").1 =
        { imdb_id := some "tt0133093" } ∧
    TmdbApi.enhance_provider_ids { api_key := some "k", find := fun _ _ => none }
      { tmdb_id := some "603" } "movie" = ({ tmdb_id := some "603" }, []) := by
  refine ⟨?_, ?_, ?_⟩
  · exact (enhance_provider_ids_contract
      { api_key := some "k", find := fun _ _ => none }
      { imdb_id := some "tt0133093" } "movie").2.2.2.2.1
      (by decide) (by decide) (by decide) (by decide)
  · exact (enhance_provider_ids_contract
      { api_key := some "k", find := fun _ _ => none }
      { imdb_id := some "tt0133093" } "movie").2.2.2.2.2
      (fun _ _ => rfl)
  · exact (enhance_provider_ids_contract
      { api_key := some "k", find := fun _ _ => none }
      { tmdb_id := some "603" } "movie").2.1 (by decide)

/-- Claim C10: for every watchlist returned by the fetch, the summary
returned by `sync()` satisfies `total = length of results`, and every result
lands in exactly one bucket, so `movies_added + shows_added + skipped +
failed = total`. -/
theorem sync_summary_counting_invariant :
    ∀ (m : SyncManager) (db : Database) (out : SyncOut),
    m.sync db = .ok out →
    out.summary.total = out.summary.results.length ∧
    out.summary.movies_added + out.summary.shows_added + out.summary.skipped +
      out.summary.failed = out.summary.total := by
  intro m db out h
  unfold SyncManager.sync at h
  rcases hw : m.plex.get_watchlist m.force_refresh with e | wl <;> rw [hw] at h
  · exact absurd h (by simp)
  · rcases hraised : (m.syncItems db wl).raised with _ | e
    · simp only [hraised, Except.ok.injEq] at h
      subst h
      unfold SyncManager.syncItems at hraised ⊢
      obtain ⟨h1, h2, h3⟩ :=
        syncLoop_counts m wl { summary := { total := wl.length }, db := db } hraised
      have hb : ({ summary := { total := wl.length }, db := db } :
          SyncOut).summary.bucketSum = 0 := by
        simp [SyncSummary.bucketSum]
      constructor
      · rw [h1, h2]
        simp
      · have := h3
        rw [hb] at this
        unfold SyncSummary.bucketSum at this
        rw [this, h1]
        simp
    · simp only [hraised] at h
      exact absurd h (by simp)

/-- Witness for C10 on the empty watchlist with a default manager. -/
theorem sync_summary_counting_invariant_witness :
    (({} : SyncManager).syncItems {} []).summary.total =
      (({} : SyncManager).syncItems {} []).summary.results.length ∧
    (({} : SyncManager).syncItems {} []).summary.movies_added +
      (({} : SyncManager).syncItems {} []).summary.shows_added +
      (({} : SyncManager).syncItems {} []).summary.skipped +
      (({} : SyncManager).syncItems {} []).summary.failed =
      (({} : SyncManager).syncItems {} []).summary.total :=
  sync_summary_counting_invariant {} {} (({} : SyncManager).syncItems {} []) rfl

/-- A normal return of the Letterboxd lazy-resolution block leaves the
database untouched: its only reachable paths are the guard-skip and the
cache hit (the scrape-and-upsert code sits behind the failing import). -/
lemma lbResolveMovie_ok_db (m : SyncManager) (db : Database)
    (item : WatchlistItem) (item1 : WatchlistItem) (db1 : Database)
    (h : m.lbResolveMovie db item = .ok (item1, db1)) : db1 = db := by
  simp only [SyncManager.lbResolveMovie] at h
  repeat' split at h
  all_goals simp_all

/-- Lemma: `is_synced` depends only on the `synced_items` table. -/
lemma is_synced_congr (db1 db2 : Database) (k svc : String)
    (h : db1.synced_items = db2.synced_items) :
    db1.is_synced k svc = db2.is_synced k svc := by
  unfold Database.is_synced
  rw [h]

/-- When the idempotence gate is open, resolution returns with a TMDB id and
dry-run is off, a one-item sync pass performs exactly one Radarr add call
whatever that call returns. -/
lemma syncItems_movie_attempts_forward (m : SyncManager) (db : Database)
    (item : WatchlistItem) (radarr : RadarrApi) (item1 item2 : WatchlistItem)
    (db1 : Database) (fnd : Nat)
    (hr : m.radarr = some radarr)
    (hm : item.media_type = .movie)
    (hs : db.is_synced item.rating_key "radarr" = false)
    (hlb : m.lbResolveMovie db item = .ok (item1, db1))
    (henh : m.tmdbEnhance item1 "movie" = (item2, fnd))
    (hres : truthy item2.provider_ids.tmdb_id = true)
    (hd : m.dry_run = false) :
    (m.syncItems db [item]).addMovieCalls = 1 := by
  rcases hadd : radarr.add_movie item2.provider_ids item2.title item2.year with e | msg
  · have hstep := sync_movie_forward_err m db item radarr item1 item2 db1 fnd e
      hr hs hlb henh hres hd hadd
    rw [syncItems_singleton_ok m db item _
      (by rw [sync_item_movie m db item hm]; exact hstep)]
  · have hstep := sync_movie_forward_ok m db item radarr item1 item2 db1 fnd msg
      hr hs hlb henh hres hd hadd
    rw [syncItems_singleton_ok m db item _
      (by rw [sync_item_movie m db item hm]; exact hstep)]

/-- When the idempotence gate is open, resolution succeeded and dry-run is
off, `_sync_tv_show` performs exactly one Sonarr add call. -/
lemma sync_tv_show_attempts_forward (m : SyncManager) (db : Database)
    (item : WatchlistItem) (sonarr : SonarrApi) (item2 : WatchlistItem) (fnd : Nat)
    (hr : m.sonarr = some sonarr)
    (hs : db.is_synced item.rating_key "sonarr" = false)
    (henh : m.tmdbEnhance item "show" = (item2, fnd))
    (hres : truthy item2.provider_ids.tvdb_id = true)
    (hd : m.dry_run = false) :
    (m.sync_tv_show db item).addSeriesCalls = 1 := by
  rcases hadd : sonarr.add_series item2.provider_ids item2.title with msg | msg
  · simp only [SyncManager.sync_tv_show]
    rw [hr]
    simp [hs, henh, hres, hd, hadd]
  · rw [sync_tv_show_forward_ok m db item sonarr item2 fnd msg hr hs henh hres hd hadd]


/-- Claim C1: idempotence of `sync` over a single movie item.  When the item
is not yet in the ledger, resolution returns with a TMDB id, dry-run is off
and the destination accepts the add, the first `sync([item])` performs
exactly one forward call and records `Success`; the second run over the
resulting ledger finds the `Success` row via `is_synced`, reports the item
as already synced (`Skipped`) and makes zero calls to the destination
adapter (and zero reverse-lookup calls), so exactly one forward call happens
in total. -/
theorem sync_single_movie_idempotent :
    ∀ (m : SyncManager) (db : Database) (item : WatchlistItem) (radarr : RadarrApi)
      (item1 item2 : WatchlistItem) (db1 : Database) (fnd : Nat) (msg : String),
    m.radarr = some radarr →
    m.dry_run = false →
    item.media_type = .movie →
    db.is_synced item.rating_key "radarr" = false →
    m.lbResolveMovie db item = .ok (item1, db1) →
    m.tmdbEnhance item1 "movie" = (item2, fnd) →
    truthy item2.provider_ids.tmdb_id = true →
    radarr.add_movie item2.provider_ids item2.title item2.year = .ok msg →
    (m.syncItems db [item]).addMovieCalls = 1 ∧
    (m.syncItems db [item]).summary.results =
      [⟨item2, .success, msg, "radarr"⟩] ∧
    (m.syncItems db [item]).db.is_synced item.rating_key "radarr" = true ∧
    (m.syncItems (m.syncItems db [item]).db [item]).addMovieCalls = 0 ∧
    (m.syncItems (m.syncItems db [item]).db [item]).tmdbFindCalls = 0 ∧
    (m.syncItems (m.syncItems db [item]).db [item]).summary.results =
      [⟨item, .skipped, "Already synced to Radarr", "radarr"⟩] ∧
    (m.syncItems (m.syncItems db [item]).db [item]).summary.skipped = 1 := by
  intro m db item radarr item1 item2 db1 fnd msg hr hd hm hs hlb henh hres hadd
  have hstep : m.sync_item db item =
      .ok { result := ⟨item2, .success, msg, "radarr"⟩,
            db := db1.record_sync m.now item.rating_key item.title
              item.media_type "radarr" .success item2.provider_ids.tmdb_id none
              item2.provider_ids.imdb_id none,
            addMovieCalls := 1, tmdbFindCalls := fnd } := by
    rw [sync_item_movie m db item hm]
    exact sync_movie_forward_ok m db item radarr item1 item2 db1 fnd msg
      hr hs hlb henh hres hd hadd
  have hout1 : m.syncItems db [item] =
      { summary := summaryAdd { total := 1 } item ⟨item2, .success, msg, "radarr"⟩,
        db := db1.record_sync m.now item.rating_key item.title item.media_type
          "radarr" .success item2.provider_ids.tmdb_id none
          item2.provider_ids.imdb_id none,
        addMovieCalls := 1, addSeriesCalls := 0, tmdbFindCalls := fnd,
        raised := none } := by
    rw [syncItems_singleton_ok m db item _ hstep]
  have hsyncd : (m.syncItems db [item]).db.is_synced item.rating_key "radarr" = true := by
    rw [hout1]
    exact is_synced_record_success db1 m.now item.rating_key item.title
      item.media_type "radarr" item2.provider_ids.tmdb_id none
      item2.provider_ids.imdb_id none
  have hstep2 : m.sync_item (m.syncItems db [item]).db item =
      .ok { result := ⟨item, .skipped, "Already synced to Radarr", "radarr"⟩,
            db := (m.syncItems db [item]).db } := by
    rw [sync_item_movie m _ item hm]
    exact sync_movie_already_synced m _ item radarr hr hsyncd
  have hout2 : m.syncItems (m.syncItems db [item]).db [item] =
      { summary := summaryAdd { total := 1 } item
          ⟨item, .skipped, "Already synced to Radarr", "radarr"⟩,
        db := (m.syncItems db [item]).db,
        addMovieCalls := 0, addSeriesCalls := 0, tmdbFindCalls := 0,
        raised := none } := by
    rw [syncItems_singleton_ok m _ item _ hstep2]
  refine ⟨?_, ?_, hsyncd, ?_, ?_, ?_, ?_⟩
  · rw [hout1]
  · rw [hout1]; simp [summaryAdd, hm]
  · rw [hout2]
  · rw [hout2]
  · rw [hout2]; simp [summaryAdd]
  · rw [hout2]; simp [summaryAdd]

/-- Witness for C1: a concrete movie with TMDB id 603, an empty ledger and a
Radarr adapter that accepts the add. -/
theorem sync_single_movie_idempotent_witness :
    (let item : WatchlistItem :=
       { rating_key := "k2", title := "The Matrix",
         media_type := .movie, provider_ids := { tmdb_id := some "603" } }
     let m : SyncManager :=
       { radarr := some { add_movie := fun _ _ _ => .ok "Successfully added movie" },
         now := 7 }
     (m.syncItems {} [item]).addMovieCalls = 1 ∧
     (m.syncItems (m.syncItems {} [item]).db [item]).addMovieCalls = 0 ∧
     (m.syncItems (m.syncItems {} [item]).db [item]).summary.skipped = 1) := by
  have h := sync_single_movie_idempotent
    { radarr := some { add_movie := fun _ _ _ => .ok "Successfully added movie" },
      now := 7 }
    {}
    { rating_key := "k2", title := "The Matrix", media_type := .movie,
      provider_ids := { tmdb_id := some "603" } }
    { add_movie := fun _ _ _ => .ok "Successfully added movie" }
    { rating_key := "k2", title := "The Matrix", media_type := .movie,
      provider_ids := { tmdb_id := some "603" } }
    { rating_key := "k2", title := "The Matrix", media_type := .movie,
      provider_ids := { tmdb_id := some "603" } }
    {} 0 "Successfully added movie"
    rfl rfl rfl (by decide) rfl rfl (by decide) rfl
  exact ⟨h.1, h.2.2.2.1, h.2.2.2.2.2.2⟩


/-- Claim C3: dry-run non-persistence.  For a movie (first conjunct) or a
series (second conjunct) whose identifier resolution succeeds, a dry-run
sync returns a `Success` result, calls the destination adapter zero times
and writes no sync-ledger row, so `is_synced` stays false; a subsequent
non-dry-run sync (same manager with dry-run off) performs the real forward
call exactly once. -/
theorem dry_run_non_persistence :
    (∀ (m : SyncManager) (db : Database) (item : WatchlistItem) (radarr : RadarrApi)
       (item1 item2 : WatchlistItem) (db1 : Database) (fnd : Nat)
       (item1b item2b : WatchlistItem) (db1b : Database) (fndb : Nat),
     m.radarr = some radarr →
     m.dry_run = true →
     item.media_type = .movie →
     db.is_synced item.rating_key "radarr" = false →
     m.lbResolveMovie db item = .ok (item1, db1) →
     m.tmdbEnhance item1 "movie" = (item2, fnd) →
     truthy item2.provider_ids.tmdb_id = true →
     m.lbResolveMovie (m.syncItems db [item]).db item = .ok (item1b, db1b) →
     m.tmdbEnhance item1b "movie" = (item2b, fndb) →
     truthy item2b.provider_ids.tmdb_id = true →
     (m.syncItems db [item]).summary.results =
       [⟨item2, .success,
          "[DRY RUN] Would add to Radarr (TMDB: " ++
            item2.provider_ids.tmdb_id.getD "" ++ ")", "radarr"⟩] ∧
     (m.syncItems db [item]).addMovieCalls = 0 ∧
     (m.syncItems db [item]).db.synced_items = db.synced_items ∧
     (m.syncItems db [item]).db.is_synced item.rating_key "radarr" = false ∧
     (({ m with dry_run := false } : SyncManager).syncItems
        (m.syncItems db [item]).db [item]).addMovieCalls = 1) ∧
    (∀ (m : SyncManager) (db : Database) (item : WatchlistItem) (sonarr : SonarrApi)
       (item2 : WatchlistItem) (fnd : Nat) (item2b : WatchlistItem) (fndb : Nat),
     m.sonarr = some sonarr →
     m.dry_run = true →
     item.media_type = .tv_show →
     db.is_synced item.rating_key "sonarr" = false →
     m.tmdbEnhance item "show" = (item2, fnd) →
     truthy item2.provider_ids.tvdb_id = true →
     m.tmdbEnhance item "show" = (item2b, fndb) →
     truthy item2b.provider_ids.tvdb_id = true →
     (m.syncItems db [item]).summary.results =
       [⟨item2, .success,
          "[DRY RUN] Would add to Sonarr (TVDB: " ++
            item2.provider_ids.tvdb_id.getD "" ++ ")", "sonarr"⟩] ∧
     (m.syncItems db [item]).addSeriesCalls = 0 ∧
     (m.syncItems db [item]).db = db ∧
     (m.syncItems db [item]).db.is_synced item.rating_key "sonarr" = false ∧
     (({ m with dry_run := false } : SyncManager).syncItems
        (m.syncItems db [item]).db [item]).addSeriesCalls = 1) := by
  constructor
  · intro m db item radarr item1 item2 db1 fnd item1b item2b db1b fndb
      hr hd hm hs hlb henh hres hlb2 henh2 hres2
    have hstep : m.sync_item db item =
        .ok { result := ⟨item2, .success,
                "[DRY RUN] Would add to Radarr (TMDB: " ++
                  item2.provider_ids.tmdb_id.getD "" ++ ")", "radarr"⟩,
              db := db1, tmdbFindCalls := fnd } := by
      rw [sync_item_movie m db item hm]
      exact sync_movie_dry_run m db item radarr item1 item2 db1 fnd
        hr hs hlb henh hres hd
    have hout1 : m.syncItems db [item] =
        { summary := summaryAdd { total := 1 } item
            ⟨item2, .success,
              "[DRY RUN] Would add to Radarr (TMDB: " ++
                item2.provider_ids.tmdb_id.getD "" ++ ")", "radarr"⟩,
          db := db1, addMovieCalls := 0, addSeriesCalls := 0,
          tmdbFindCalls := fnd, raised := none } := by
      rw [syncItems_singleton_ok m db item _ hstep]
    have hdb1 : db1 = db := lbResolveMovie_ok_db m db item item1 db1 hlb
    have hns : (m.syncItems db [item]).db.is_synced item.rating_key "radarr" = false := by
      rw [hout1]
      rw [is_synced_congr db1 db _ _ (by rw [hdb1])]
      exact hs
    refine ⟨?_, ?_, ?_, hns, ?_⟩
    · rw [hout1]; simp [summaryAdd, hm]
    · rw [hout1]
    · rw [hout1]; rw [hdb1]
    · exact syncItems_movie_attempts_forward { m with dry_run := false }
        (m.syncItems db [item]).db item radarr item1b item2b db1b fndb
        hr hm hns hlb2 henh2 hres2 rfl
  · intro m db item sonarr item2 fnd item2b fndb hr hd hm hs henh hres henh2 hres2
    have hstep : m.sync_item db item =
        .ok { result := ⟨item2, .success,
                "[DRY RUN] Would add to Sonarr (TVDB: " ++
                  item2.provider_ids.tvdb_id.getD "" ++ ")", "sonarr"⟩,
              db := db, tmdbFindCalls := fnd } := by
      rw [sync_item_tv_show m db item hm]
      rw [sync_tv_show_dry_run m db item sonarr item2 fnd hr hs henh hres hd]
    have hout1 : m.syncItems db [item] =
        { summary := summaryAdd { total := 1 } item
            ⟨item2, .success,
              "[DRY RUN] Would add to Sonarr (TVDB: " ++
                item2.provider_ids.tvdb_id.getD "" ++ ")", "sonarr"⟩,
          db := db, addMovieCalls := 0, addSeriesCalls := 0,
          tmdbFindCalls := fnd, raised := none } := by
      rw [syncItems_singleton_ok m db item _ hstep]
    have hns : (m.syncItems db [item]).db.is_synced item.rating_key "sonarr" = false := by
      rw [hout1]
      exact hs
    refine ⟨?_, ?_, ?_, hns, ?_⟩
    · rw [hout1]; simp [summaryAdd, hm]
    · rw [hout1]
    · rw [hout1]
    · rw [syncItems_singleton_ok ({ m with dry_run := false } : SyncManager)
        (m.syncItems db [item]).db item _
        (sync_item_tv_show ({ m with dry_run := false } : SyncManager)
          (m.syncItems db [item]).db item hm)]
      exact sync_tv_show_attempts_forward { m with dry_run := false }
        (m.syncItems db [item]).db item sonarr item2b fndb hr hns henh2 hres2 rfl

/-- Witness for C3: a dry-run over a resolvable movie and a resolvable
series makes zero adapter calls, and the following real run makes exactly
one adapter call each. -/
theorem dry_run_non_persistence_witness :
    (let item : WatchlistItem :=
       { rating_key := "k2", title := "The Matrix",
         media_type := .movie, provider_ids := { tmdb_id := some "603" } }
     let m : SyncManager :=
       { radarr := some { add_movie := fun _ _ _ => .ok "added" }, dry_run := true }
     (m.syncItems {} [item]).addMovieCalls = 0 ∧
     (m.syncItems {} [item]).db.synced_items = Database.synced_items {} ∧
     (({ m with dry_run := false } : SyncManager).syncItems
        (m.syncItems {} [item]).db [item]).addMovieCalls = 1) ∧
    (let item : WatchlistItem :=
       { rating_key := "k3", title := "Game of Thrones",
         media_type := .tv_show, provider_ids := { tvdb_id := some "121361" } }
     let m : SyncManager :=
       { sonarr := some { add_series := fun _ _ => .ok "added" }, dry_run := true }
     (m.syncItems {} [item]).addSeriesCalls = 0 ∧
     (m.syncItems {} [item]).db = ({} : Database) ∧
     (({ m with dry_run := false } : SyncManager).syncItems
        (m.syncItems {} [item]).db [item]).addSeriesCalls = 1) := by
  constructor
  · have h := (dry_run_non_persistence).1
      { radarr := some { add_movie := fun _ _ _ => .ok "added" }, dry_run := true }
      {}
      { rating_key := "k2", title := "The Matrix", media_type := .movie,
        provider_ids := { tmdb_id := some "603" } }
      { add_movie := fun _ _ _ => .ok "added" }
      { rating_key := "k2", title := "The Matrix", media_type := .movie,
        provider_ids := { tmdb_id := some "603" } }
      { rating_key := "k2", title := "The Matrix", media_type := .movie,
        provider_ids := { tmdb_id := some "603" } }
      {} 0
      { rating_key := "k2", title := "The Matrix", media_type := .movie,
        provider_ids := { tmdb_id := some "603" } }
      { rating_key := "k2", title := "The Matrix", media_type := .movie,
        provider_ids := { tmdb_id := some "603" } }
      _ 0
      rfl rfl rfl (by decide) rfl rfl (by decide) rfl rfl (by decide)
    exact ⟨h.2.1, h.2.2.1, h.2.2.2.2⟩
  · have h := (dry_run_non_persistence).2
      { sonarr := some { add_series := fun _ _ => .ok "added" }, dry_run := true }
      {}
      { rating_key := "k3", title := "Game of Thrones", media_type := .tv_show,
        provider_ids := { tvdb_id := some "121361" } }
      { add_series := fun _ _ => .ok "added" }
      { rating_key := "k3", title := "Game of Thrones", media_type := .tv_show,
        provider_ids := { tvdb_id := some "121361" } }
      0
      { rating_key := "k3", title := "Game of Thrones", media_type := .tv_show,
        provider_ids := { tvdb_id := some "121361" } }
      0
      rfl rfl rfl (by decide) rfl (by decide) rfl (by decide)
    exact ⟨h.2.1, h.2.2.1, h.2.2.2.2⟩


/-- Claim C4: failure isolation.  In a batch of three distinct resolvable
movies where the second forward call raises and the other two succeed, the
batch completes (the per-item `RadarrApiError` is a value, so `sync` returns
`.ok` and no per-item error escapes as an exception), items 1 and 3 reach
`Success` with `Success` ledger rows, item 2 gets a `Failed` ledger row, and
the summary counts exactly 1 failure out of 3 total. -/
theorem failure_isolation_batch_of_three :
    ∀ (m : SyncManager) (db : Database) (i1 i2 i3 : WatchlistItem)
      (radarr : RadarrApi) (msg1 err2 msg3 : String),
    m.radarr = some radarr →
    m.dry_run = false →
    m.plex.get_watchlist m.force_refresh = .ok [i1, i2, i3] →
    i1.media_type = .movie →
    i2.media_type = .movie →
    i3.media_type = .movie →
    truthy i1.provider_ids.tmdb_id = true →
    truthy i2.provider_ids.tmdb_id = true →
    truthy i3.provider_ids.tmdb_id = true →
    db.is_synced i1.rating_key "radarr" = false →
    db.is_synced i2.rating_key "radarr" = false →
    db.is_synced i3.rating_key "radarr" = false →
    i2.rating_key ≠ i1.rating_key →
    i3.rating_key ≠ i1.rating_key →
    i3.rating_key ≠ i2.rating_key →
    radarr.add_movie i1.provider_ids i1.title i1.year = .ok msg1 →
    radarr.add_movie i2.provider_ids i2.title i2.year = .error err2 →
    radarr.add_movie i3.provider_ids i3.title i3.year = .ok msg3 →
    m.sync db = .ok (m.syncItems db [i1, i2, i3]) ∧
    (m.syncItems db [i1, i2, i3]).summary.results.map SyncResult.status =
      [.success, .failed, .success] ∧
    (m.syncItems db [i1, i2, i3]).summary.total = 3 ∧
    (m.syncItems db [i1, i2, i3]).summary.failed = 1 ∧
    (m.syncItems db [i1, i2, i3]).summary.movies_added = 2 ∧
    (m.syncItems db [i1, i2, i3]).summary.skipped = 0 ∧
    (m.syncItems db [i1, i2, i3]).db.is_synced i1.rating_key "radarr" = true ∧
    (m.syncItems db [i1, i2, i3]).db.is_synced i3.rating_key "radarr" = true ∧
    ((m.syncItems db [i1, i2, i3]).db.rowsFor i2.rating_key "radarr").map
      SyncedItemRow.status = [RequestStatus.failed.value] := by
  intro m db i1 i2 i3 radarr msg1 err2 msg3 hr hd hplex hm1 hm2 hm3 ht1 ht2 ht3
    hs1 hs2 hs3 h21 h31 h32 ha1 ha2 ha3
  have e1 : m.sync_item db i1 =
      .ok { result := ⟨i1, .success, msg1, "radarr"⟩,
            db := db.record_sync m.now i1.rating_key i1.title i1.media_type
              "radarr" .success i1.provider_ids.tmdb_id none
              i1.provider_ids.imdb_id none,
            addMovieCalls := 1, addSeriesCalls := 0, tmdbFindCalls := 0 } := by
    rw [sync_item_movie m db i1 hm1]
    exact sync_movie_forward_ok m db i1 radarr i1 i1 db 0 msg1 hr hs1
      (lbResolveMovie_tmdb_present m db i1 ht1)
      (tmdbEnhance_tmdb_present m i1 "movie" ht1) ht1 hd ha1
  have hs2b : (db.record_sync m.now i1.rating_key i1.title i1.media_type "radarr"
      .success i1.provider_ids.tmdb_id none i1.provider_ids.imdb_id
      none).is_synced i2.rating_key "radarr" = false := by
    rw [is_synced_record_other db m.now i1.rating_key i1.title i1.media_type
      "radarr" .success i1.provider_ids.tmdb_id none i1.provider_ids.imdb_id none
      i2.rating_key "radarr" (Or.inl h21)]
    exact hs2
  have e2 : m.sync_item (db.record_sync m.now i1.rating_key i1.title
      i1.media_type "radarr" .success i1.provider_ids.tmdb_id none
      i1.provider_ids.imdb_id none) i2 =
      .ok { result := ⟨i2, .failed, err2, "radarr"⟩,
            db := (db.record_sync m.now i1.rating_key i1.title i1.media_type
              "radarr" .success i1.provider_ids.tmdb_id none
              i1.provider_ids.imdb_id none).record_sync m.now i2.rating_key
              i2.title i2.media_type "radarr" .failed i2.provider_ids.tmdb_id
              none none (some err2),
            addMovieCalls := 1, addSeriesCalls := 0, tmdbFindCalls := 0 } := by
    rw [sync_item_movie m _ i2 hm2]
    exact sync_movie_forward_err m _ i2 radarr i2 i2 _ 0 err2 hr hs2b
      (lbResolveMovie_tmdb_present m _ i2 ht2)
      (tmdbEnhance_tmdb_present m i2 "movie" ht2) ht2 hd ha2
  have hs3b : ((db.record_sync m.now i1.rating_key i1.title i1.media_type "radarr"
      .success i1.provider_ids.tmdb_id none i1.provider_ids.imdb_id
      none).record_sync m.now i2.rating_key i2.title i2.media_type "radarr"
      .failed i2.provider_ids.tmdb_id none none
      (some err2)).is_synced i3.rating_key "radarr" = false := by
    rw [is_synced_record_other _ m.now i2.rating_key i2.title i2.media_type
      "radarr" .failed i2.provider_ids.tmdb_id none none (some err2)
      i3.rating_key "radarr" (Or.inl h32)]
    rw [is_synced_record_other db m.now i1.rating_key i1.title i1.media_type
      "radarr" .success i1.provider_ids.tmdb_id none i1.provider_ids.imdb_id none
      i3.rating_key "radarr" (Or.inl h31)]
    exact hs3
  have e3 : m.sync_item ((db.record_sync m.now i1.rating_key i1.title
      i1.media_type "radarr" .success i1.provider_ids.tmdb_id none
      i1.provider_ids.imdb_id none).record_sync m.now i2.rating_key i2.title
      i2.media_type "radarr" .failed i2.provider_ids.tmdb_id none none
      (some err2)) i3 =
      .ok { result := ⟨i3, .success, msg3, "radarr"⟩,
            db := ((db.record_sync m.now i1.rating_key i1.title i1.media_type
              "radarr" .success i1.provider_ids.tmdb_id none
              i1.provider_ids.imdb_id none).record_sync m.now i2.rating_key
              i2.title i2.media_type "radarr" .failed i2.provider_ids.tmdb_id
              none none (some err2)).record_sync m.now i3.rating_key i3.title
              i3.media_type "radarr" .success i3.provider_ids.tmdb_id none
              i3.provider_ids.imdb_id none,
            addMovieCalls := 1, addSeriesCalls := 0, tmdbFindCalls := 0 } := by
    rw [sync_item_movie m _ i3 hm3]
    exact sync_movie_forward_ok m _ i3 radarr i3 i3 _ 0 msg3 hr hs3b
      (lbResolveMovie_tmdb_present m _ i3 ht3)
      (tmdbEnhance_tmdb_present m i3 "movie" ht3) ht3 hd ha3
  have hout : m.syncItems db [i1, i2, i3] =
      { summary := summaryAdd (summaryAdd (summaryAdd { total := 3 } i1
          ⟨i1, .success, msg1, "radarr"⟩) i2 ⟨i2, .failed, err2, "radarr"⟩) i3
          ⟨i3, .success, msg3, "radarr"⟩,
        db := ((db.record_sync m.now i1.rating_key i1.title i1.media_type "radarr"
          .success i1.provider_ids.tmdb_id none i1.provider_ids.imdb_id
          none).record_sync m.now i2.rating_key i2.title i2.media_type "radarr"
          .failed i2.provider_ids.tmdb_id none none (some err2)).record_sync
          m.now i3.rating_key i3.title i3.media_type "radarr" .success
          i3.provider_ids.tmdb_id none i3.provider_ids.imdb_id none,
        addMovieCalls := 3, addSeriesCalls := 0,
        tmdbFindCalls := 0, raised := none } := by
    simp only [SyncManager.syncItems, SyncManager.syncLoop, e1, e2, e3,
      List.length_cons, List.length_nil]
  refine ⟨?_, ?_, ?_, ?_, ?_, ?_, ?_, ?_, ?_⟩
  · simp only [SyncManager.sync, hplex, hout]
  · rw [hout]
    simp [summaryAdd, hm1, hm2, hm3]
  · rw [hout]
    simp [summaryAdd, hm1, hm2, hm3]
  · rw [hout]
    simp [summaryAdd, hm1, hm2, hm3]
  · rw [hout]
    simp [summaryAdd, hm1, hm2, hm3]
  · rw [hout]
    simp [summaryAdd, hm1, hm2, hm3]
  · rw [hout]
    rw [is_synced_record_other _ m.now i3.rating_key i3.title i3.media_type
      "radarr" .success i3.provider_ids.tmdb_id none i3.provider_ids.imdb_id none
      i1.rating_key "radarr" (Or.inl (Ne.symm h31))]
    rw [is_synced_record_other _ m.now i2.rating_key i2.title i2.media_type
      "radarr" .failed i2.provider_ids.tmdb_id none none (some err2)
      i1.rating_key "radarr" (Or.inl (Ne.symm h21))]
    exact is_synced_record_success db m.now i1.rating_key i1.title i1.media_type
      "radarr" i1.provider_ids.tmdb_id none i1.provider_ids.imdb_id none
  · rw [hout]
    exact is_synced_record_success _ m.now i3.rating_key i3.title i3.media_type
      "radarr" i3.provider_ids.tmdb_id none i3.provider_ids.imdb_id none
  · rw [hout]
    rw [rowsFor_record_sync_other _ m.now i3.rating_key i3.title i3.media_type
      "radarr" .success i3.provider_ids.tmdb_id none i3.provider_ids.imdb_id none
      i2.rating_key "radarr" (Or.inl (Ne.symm h32))]
    rw [rowsFor_record_sync_self _ m.now i2.rating_key i2.title i2.media_type
      "radarr" .failed i2.provider_ids.tmdb_id none none (some err2)]
    rfl

/-- Witness for C4: three concrete movies where the adapter rejects exactly
the second title. -/
theorem failure_isolation_batch_of_three_witness :
    (let i1 : WatchlistItem :=
       { rating_key := "kA", title := "A", media_type := .movie,
         provider_ids := { tmdb_id := some "1" } }
     let i2 : WatchlistItem :=
       { rating_key := "kB", title := "B", media_type := .movie,
         provider_ids := { tmdb_id := some "2" } }
     let i3 : WatchlistItem :=
       { rating_key := "kC", title := "C", media_type := .movie,
         provider_ids := { tmdb_id := some "3" } }
     let m : SyncManager :=
       { plex := { get_watchlist := fun _ => Except.ok [i1, i2, i3] },
         radarr := some { add_movie := fun _ title _ =>
           if title == "B" then Except.error "boom" else Except.ok "ok" } }
     (m.syncItems {} [i1, i2, i3]).summary.results.map SyncResult.status =
       [.success, .failed, .success] ∧
     (m.syncItems {} [i1, i2, i3]).summary.failed = 1 ∧
     (m.syncItems {} [i1, i2, i3]).summary.total = 3) := by
  intro i1 i2 i3 m
  have h := failure_isolation_batch_of_three m {} i1 i2 i3 _ "ok" "boom" "ok"
    rfl rfl rfl rfl rfl rfl (by decide) (by decide) (by decide)
    (by decide) (by decide) (by decide) (by decide) (by decide) (by decide)
    rfl rfl rfl
  exact ⟨h.2.1, h.2.2.2.1, h.2.2.1⟩

/-- Claim C2, failing run: a slug-only movie item with no truthy cached
TMDB id sends `_sync_movie` into the cache-miss branch, where the broken
relative import at sync_manager.py line 153 raises `ModuleNotFoundError`
before any scrape or cache write: the whole sync pass aborts with the
exception (`sync` returns it, since only `PlexApiError` is caught), the
database is untouched — in particular no negative cache entry is ever
persisted — and no forward call is made.  The claimed behaviour (one scrape,
a persisted negative result consulted by the following five runs) never
materialises; every subsequent run of the same item crashes identically at
the same line. -/
theorem letterboxd_slug_resolution_raises :
    (let item : WatchlistItem :=
       { rating_key := "lb:film:1", title := "Obscure Film",
         media_type := .movie, letterboxd_id := some "1",
         letterboxd_slug := some "obscure-film" }
     let m : SyncManager :=
       { plex := { get_watchlist := fun _ => Except.ok [item] },
         radarr := some {} }
     m.sync {} = .error moduleNotFoundLetterboxd ∧
     (m.syncItems {} [item]).raised = some moduleNotFoundLetterboxd ∧
     (m.syncItems {} [item]).db = ({} : Database) ∧
     (m.syncItems {} [item]).addMovieCalls = 0 ∧
     m.sync (m.syncItems {} [item]).db = .error moduleNotFoundLetterboxd) := by
  exact ⟨rfl, rfl, rfl, rfl, rfl⟩

end Lumarr
